import Mathlib

/-!
Shallow embedding of the lazy checkpoint-loading utility in
`src/lightning/fabric/utilities/load.py` and proofs of the specified
properties of its operations.

The embedding models the module's own code directly.  The handful of
external collaborators it calls (the torch tensor-rebuild helpers, the
archive file reader, the `TypedStorage` constructors, the warnings
context manager, and the generic collection-traversal utility) are
modelled as explicit Lean functions at the level of detail the module
relies on: reads and emitted warnings are recorded in an explicit event
trace so that I/O and warning-suppression behaviour is provable.
-/

namespace LazyLoad

/-- Torch element dtypes, as far as the loader distinguishes them.
A storage class tag (such as `torch.FloatStorage`) is modelled by the
dtype it carries, since the loader only ever uses `cls().dtype`. -/
inductive DType where
  | float32
  | float64
  | float16
  | int64
  | int32
  | int16
  | uint8
  deriving DecidableEq

/-- Models `torch._utils._element_size`: bytes per element of a dtype. -/
def DType.elementSize : DType → Nat
  | .float32 => 4
  | .float64 => 8
  | .float16 => 2
  | .int64 => 8
  | .int32 => 4
  | .int16 => 2
  | .uint8 => 1

/-- Observable effects of the loader: archive record reads and emitted
warnings. -/
inductive Event where
  | read (record : String) (nbytes : Nat)
  | warn (msg : String)
  deriving DecidableEq

/-- Whether an event is a warning. -/
def Event.isWarn : Event → Bool
  | .warn _ => true
  | .read _ _ => false

/-- Whether an event is an archive read. -/
def Event.isRead : Event → Bool
  | .warn _ => false
  | .read _ _ => true

/-- Models `warnings.catch_warnings()` with `simplefilter("ignore")`
around a computation: the warnings emitted inside the block are
discarded; every other effect of the block is kept. -/
def catch_warnings_ignore {α : Type} (p : α × List Event) : α × List Event :=
  (p.1, p.2.filter (fun e => !e.isWarn))

/-- The persistent-reference tuple `(name, cls, fn, device, size)` handed
to `persistent_load` and stored as `storageinfo`. -/
structure Pid where
  name : String
  cls : DType
  fn : String
  device : String
  size : Nat
  deriving DecidableEq

/-- Backing data of a storage: either no memory at all (the meta device)
or concrete bytes. -/
inductive StorageData where
  | meta
  | bytes (bs : List Nat)
  deriving DecidableEq

/-- Models `torch.storage.TypedStorage` to the extent the loader uses
it, together with the dynamically attached `archiveinfo` attribute. -/
structure TypedStorage where
  dtype : DType
  device : String
  data : StorageData
  archiveinfo : Option Pid
  deriving DecidableEq

/-- Models the legacy constructor call
`TypedStorage(wrap_storage=uts, dtype=dtype, _internal=True)`: wraps raw
bytes into a typed storage and emits a deprecation-style warning (the
known noisy legacy path). -/
def TypedStorage.wrap (uts : List Nat) (dtype : DType) : TypedStorage × List Event :=
  (⟨dtype, "cpu", StorageData.bytes uts, none⟩, [Event.warn "TypedStorage is deprecated"])

/-- Models the constructor call `TypedStorage(dtype=d, device=dev)` with
no backing memory requested; it also goes through the warning-emitting
legacy path. -/
def TypedStorage.fresh (dtype : DType) (device : String) : TypedStorage × List Event :=
  (⟨dtype, device, StorageData.meta, none⟩, [Event.warn "TypedStorage is deprecated"])

/-- The archive: an indexed container of named byte records (the
external `torch.PyTorchFileReader` collaborator is modelled over it). -/
structure Archive where
  records : List (String × List Nat)
  deriving DecidableEq

/-- The bytes stored under a record name (empty if absent). -/
def Archive.getRecordBytes (ar : Archive) (record : String) : List Nat :=
  match ar.records.find? (fun kv => kv.1 == record) with
  | some kv => kv.2
  | none => []

/-- Models `file_reader.get_storage_from_record(record, nbytes, UntypedStorage)`:
a range-bounded read of `nbytes` bytes of the named record, traced as a
single read event. -/
def Archive.get_storage_from_record (ar : Archive) (record : String) (nbytes : Nat) :
    List Nat × List Event :=
  ((ar.getRecordBytes record).take nbytes, [Event.read record nbytes])

/-- State dictionaries attached by the type-changing rebuild. -/
abbrev TState := List (String × Int)

/-- Python dict update: entries of `upd` replace same-keyed entries of
`old` and are appended otherwise. -/
def dictUpdate (old upd : TState) : TState :=
  old.filter (fun kv => upd.all (fun kv2 => kv2.1 != kv.1)) ++ upd

/-- A concrete torch tensor as far as the loader observes it: backing
storage, view arguments, autograd flags, and the subclass/state
decoration applied by the type-changing rebuild. -/
structure Tensor where
  storage : TypedStorage
  storage_offset : Nat
  size : List Nat
  stride : List Nat
  requires_grad : Bool
  backward_hooks : List String
  metadata : Option Nat
  ttype : Option String
  tstate : TState
  is_param : Bool
  deriving DecidableEq

/-- A tensor's dtype is its storage's dtype. -/
def Tensor.dtype (t : Tensor) : DType := t.storage.dtype

/-- Whether a tensor has concrete backing bytes (as opposed to a
meta-device placeholder storage). -/
def Tensor.isMaterialized (t : Tensor) : Bool :=
  match t.storage.data with
  | StorageData.bytes _ => true
  | StorageData.meta => false

/-- The concrete bytes backing a tensor (empty for meta storage). -/
def Tensor.dataBytes (t : Tensor) : List Nat :=
  match t.storage.data with
  | StorageData.bytes bs => bs
  | StorageData.meta => []

/-- Models `torch._utils._rebuild_tensor_v2`: build a tensor over the
given storage with the given view arguments. -/
def torchRebuildTensorV2 (storage : TypedStorage) (storage_offset : Nat)
    (size stride : List Nat) (requires_grad : Bool) (backward_hooks : List String)
    (metadata : Option Nat) : Tensor :=
  ⟨storage, storage_offset, size, stride, requires_grad, backward_hooks, metadata,
    none, [], false⟩

/-- The `rebuild_args` tuple
`(storage_offset, size, stride, requires_grad, backward_hooks, metadata)`
captured by `rebuild_tensor_v2` for later materialization. -/
structure RebuildArgs where
  storage_offset : Nat
  size : List Nat
  stride : List Nat
  requires_grad : Bool
  backward_hooks : List String
  metadata : Option Nat
  deriving DecidableEq

/-- `torch._utils._rebuild_tensor_v2(storage, *rebuild_args)`. -/
def torchRebuildTensorV2Args (storage : TypedStorage) (a : RebuildArgs) : Tensor :=
  torchRebuildTensorV2 storage a.storage_offset a.size a.stride a.requires_grad
    a.backward_hooks a.metadata

/-- The subclass/state decoration step of
`torch._tensor._rebuild_from_type_v2`: retag the tensor with the target
type and merge the supplied state dictionary. -/
def applyTypeState (t : Tensor) (new_type : String) (state : TState) : Tensor :=
  { t with
    ttype := some new_type
    tstate := dictUpdate t.tstate state }

/-- Models `torch._tensor._rebuild_from_type_v2(func, new_type, args, state)`:
invoke the build function on its arguments and decorate the result. -/
def torchRebuildFromTypeV2 {α : Type} (func : α → Tensor) (new_type : String)
    (args : α) (state : TState) : Tensor :=
  applyTypeState (func args) new_type state

/-- Models `torch._utils._rebuild_parameter(data, requires_grad, backward_hooks)`:
wrap a tensor as a learnable parameter with the given flag and hooks. -/
def torchRebuildParameter (data : Tensor) (requires_grad : Bool)
    (backward_hooks : List String) : Tensor :=
  { data with
    is_param := true
    requires_grad := requires_grad
    backward_hooks := backward_hooks }

/-- One deferred transformation installed over a placeholder's load
closure by overriding `_load_tensor`: either the type-changing rebuild
(line 58-62 of the source) or the parameter wrap (line 78-82). -/
inductive Transform where
  | fromTypeV2 (new_type : String) (state : TState)
  | param (requires_grad : Bool) (backward_hooks : List String)
  deriving DecidableEq

/-- Run one installed closure layer on the tensor produced by the layer
below it: `fromTypeV2` replays
`torch._tensor._rebuild_from_type_v2(lambda: t, new_type, (), state)`
and `param` replays `torch._utils._rebuild_parameter(t, rg, hooks)`. -/
def applyTransform (t : Tensor) : Transform → Tensor
  | Transform.fromTypeV2 nt st => torchRebuildFromTypeV2 (fun _ : Unit => t) nt () st
  | Transform.param rg hooks => torchRebuildParameter t rg hooks

/-- Models `_LazyLoadingUnpickler`: the deserializer context carried by
every placeholder; its `file_reader` is the open archive. -/
structure LazyLoadingUnpickler where
  file_reader : Archive
  deriving DecidableEq

/-- Models `_NotYetLoadedTensor`.  In the source, `rebuild_from_type_v2`
and `rebuild_parameter` override the instance's `_load_tensor` method
with a closure that first runs the captured old `_load_tensor` and then
applies one more rebuild step; the chain of installed closures is
represented explicitly by `loadWrappers`, applied innermost-first. -/
structure NotYetLoadedTensor where
  metatensor : Tensor
  archiveinfo : LazyLoadingUnpickler
  storageinfo : Pid
  rebuild_args : RebuildArgs
  loadWrappers : List Transform
  deriving DecidableEq

/-- The result of a deferred-rebuild operation during unpickling:
either an already concrete tensor or a placeholder. -/
inductive TValue where
  | concrete (t : Tensor)
  | lazy (n : NotYetLoadedTensor)
  deriving DecidableEq

namespace NotYetLoadedTensor

/-- Source lines 106-118, the original `_load_tensor` body: one
range-bounded read of `storageinfo.size * element_size(dtype)` bytes of
record `data/{fn}`, a warning-suppressed legacy wrap of the raw bytes
into a typed storage, then `torch._utils._rebuild_tensor_v2(storage,
*rebuild_args)`. -/
def base_load_tensor (self : NotYetLoadedTensor) : Tensor × List Event :=
  let dtype := self.metatensor.dtype
  let r1 := self.archiveinfo.file_reader.get_storage_from_record
    ("data/" ++ self.storageinfo.fn) (self.storageinfo.size * dtype.elementSize)
  let r2 := catch_warnings_ignore (TypedStorage.wrap r1.1 dtype)
  (torchRebuildTensorV2Args r2.1 self.rebuild_args, r1.2 ++ r2.2)

/-- The placeholder's current `_load_tensor`: the original body with
every installed override closure replayed on top of it, innermost
first. -/
def load_tensor (self : NotYetLoadedTensor) : Tensor × List Event :=
  let r := self.base_load_tensor
  (self.loadWrappers.foldl applyTransform r.1, r.2)

/-- Source lines 44-64, `rebuild_from_type_v2`: run the inner build
function; if the result is a placeholder, install a closure over its
`_load_tensor` that runs the old load and then replays the type-changing
rebuild with the captured state; otherwise rebuild immediately.  (On the
concrete branch the source re-invokes `func(*args)` inside the torch
helper; the build functions reaching this point are pure, so the matched
result `t` is used for that second invocation.) -/
def rebuild_from_type_v2 {α : Type} (func : α → TValue) (new_type : String)
    (args : α) (state : TState) : TValue :=
  match func args with
  | TValue.lazy ret =>
      TValue.lazy
        { ret with loadWrappers := ret.loadWrappers ++ [Transform.fromTypeV2 new_type state] }
  | TValue.concrete t =>
      TValue.concrete (torchRebuildFromTypeV2 (fun _ : α => t) new_type args state)

/-- Source lines 66-84, `rebuild_parameter`: if `data` is a placeholder,
install a closure that loads it and then wraps the result as a
parameter; otherwise wrap immediately. -/
def rebuild_parameter (data : TValue) (requires_grad : Bool)
    (backward_hooks : List String) : TValue :=
  match data with
  | TValue.lazy d =>
      TValue.lazy
        { d with loadWrappers :=
            d.loadWrappers ++ [Transform.param requires_grad backward_hooks] }
  | TValue.concrete t =>
      TValue.concrete (torchRebuildParameter t requires_grad backward_hooks)

/-- Source lines 86-104, `rebuild_tensor_v2`: capture the rebuild
arguments, build the zero-footprint metatensor over the (meta-device)
storage, and read the `archiveinfo` attribute the deserializer attached
to the storage (absence of that attribute is a Python

`AttributeError`, modelled by `none`). -/
def rebuild_tensor_v2 (storage : TypedStorage) (storage_offset : Nat)
    (size stride : List Nat) (requires_grad : Bool) (backward_hooks : List String)
    (metadata : Option Nat) (archiveinfo : LazyLoadingUnpickler) :
    Option NotYetLoadedTensor :=
  let rebuild_args : RebuildArgs :=
    ⟨storage_offset, size, stride, requires_grad, backward_hooks, metadata⟩
  let metatensor := torchRebuildTensorV2 storage storage_offset size stride
    requires_grad backward_hooks metadata
  storage.archiveinfo.map (fun storageinfo =>
    ⟨metatensor, archiveinfo, storageinfo, rebuild_args, []⟩)

end NotYetLoadedTensor

/-- The fixed allow-list of metadata attribute names (source lines
134-147) whose reads are delegated to the metatensor. -/
def metadataAttrs : List String :=
  ["dtype", "grad", "grad_fn", "layout", "names", "ndim", "output_nr",
   "requires_grad", "retains_grad", "size", "shape", "volatile"]

/-- A value produced by an attribute read. -/
inductive AttrVal where
  | dtypeV (d : DType)
  | shapeV (s : List Nat)
  | natV (n : Nat)
  | boolV (b : Bool)
  | noneV
  | strV (s : String)
  | namesV (l : List (Option String))
  | boundMethod (t : Tensor) (name : String)
  deriving DecidableEq

/-- The allow-listed attributes of a torch tensor, as the zero-footprint
metatensor exposes them (external torch behaviour; only the twelve
allow-listed names are ever consulted through this function). -/
def Tensor.attrOf (t : Tensor) : String → AttrVal
  | "dtype" => AttrVal.dtypeV t.storage.dtype
  | "grad" => AttrVal.noneV
  | "grad_fn" => AttrVal.noneV
  | "layout" => AttrVal.strV "torch.strided"
  | "names" => AttrVal.namesV (t.size.map (fun _ => none))
  | "ndim" => AttrVal.natV t.size.length
  | "output_nr" => AttrVal.natV 0
  | "requires_grad" => AttrVal.boolV t.requires_grad
  | "retains_grad" => AttrVal.boolV false
  | "size" => AttrVal.boundMethod t "size"
  | "shape" => AttrVal.shapeV t.size
  | "volatile" => AttrVal.boolV false
  | _ => AttrVal.noneV

/-- The message of the `AttributeError` raised at source line 155,
`f"{type(self)} does not have {name}"`. -/
def attrErrorMsg (name : String) : String :=
  "<class lightning.fabric.utilities.load.NotYetLoadedTensor> does not have " ++ name

namespace NotYetLoadedTensor

/-- Source lines 132-155, `__getattr__`: allow-listed names are read off
the metatensor with no I/O; the single name `contiguous` materializes
and returns the loaded tensor's attribute; every other name raises
an `AttributeError` naming the placeholder's type. -/
def getattr (self : NotYetLoadedTensor) (name : String) :
    Except String AttrVal × List Event :=
  if name ∈ metadataAttrs then
    (Except.ok (self.metatensor.attrOf name), [])
  else if name = "contiguous" then
    let r := self.load_tensor
    (Except.ok (AttrVal.boundMethod r.1 name), r.2)
  else
    (Except.error (attrErrorMsg name), [])

end NotYetLoadedTensor

/-- An argument of an intercepted tensor operation: a real tensor, a
placeholder, or any other object. -/
inductive TorchArg where
  | plain (t : Tensor)
  | lazy (n : NotYetLoadedTensor)
  | other (v : Int)
  deriving DecidableEq

/-- The per-argument step of the list comprehension at source line 129:
a placeholder argument is materialized, anything else passes through. -/
def loadTorchArg : TorchArg → TorchArg × List Event
  | TorchArg.lazy n =>
      let r := n.load_tensor
      (TorchArg.plain r.1, r.2)
  | a => (a, [])

namespace NotYetLoadedTensor

/-- Source lines 120-130, `__torch_function__`: materialize every
placeholder among the positional arguments, left to right, then run the
operation on the results; keyword arguments are forwarded as they are. -/
def torch_function {β : Type} (func : List TorchArg → List (String × TorchArg) → β)
    (args : List TorchArg) (kwargs : List (String × TorchArg)) : β × List Event :=
  let pairs := args.map loadTorchArg
  (func (pairs.map Prod.fst) kwargs, (pairs.map Prod.snd).flatten)

end NotYetLoadedTensor

namespace LazyLoadingUnpickler

/-- Source lines 175-181, `persistent_load`: build a zero-footprint
storage descriptor of the storage class's dtype on the meta device
inside a warning-suppressing block, then attach the full reference
tuple to it.  No archive record is touched. -/
def persistent_load (_self : LazyLoadingUnpickler) (pid : Pid) :
    TypedStorage × List Event :=
  let r := catch_warnings_ignore (TypedStorage.fresh pid.cls "meta")
  ({ r.1 with archiveinfo := some pid }, r.2)

end LazyLoadingUnpickler

/-- A Python object tree as the materializer sees it: tensor leaves
(concrete or placeholder), scalar leaves, sequences and mappings. -/
inductive PyObj where
  | tensor (t : Tensor)
  | lazy (n : NotYetLoadedTensor)
  | scalar (v : Int)
  | list (xs : List PyObj)
  | dict (kvs : List (String × PyObj))

mutual

/-- Models `apply_to_collection(collection, dtype=_NotYetLoadedTensor,
function=f)` from `lightning_utilities` (external collaborator, spec
section 6): replace every placeholder leaf by `f` of it, recurse
through sequences and mappings, and pass every other leaf through. -/
def applyToCollection (f : NotYetLoadedTensor → Tensor) : PyObj → PyObj
  | PyObj.tensor t => PyObj.tensor t
  | PyObj.lazy n => PyObj.tensor (f n)
  | PyObj.scalar v => PyObj.scalar v
  | PyObj.list xs => PyObj.list (applyToCollectionList f xs)
  | PyObj.dict kvs => PyObj.dict (applyToCollectionDict f kvs)

/-- `applyToCollection` mapped over the elements of a sequence. -/
def applyToCollectionList (f : NotYetLoadedTensor → Tensor) : List PyObj → List PyObj
  | [] => []
  | x :: xs => applyToCollection f x :: applyToCollectionList f xs

/-- `applyToCollection` mapped over the values of a mapping. -/
def applyToCollectionDict (f : NotYetLoadedTensor → Tensor) :
    List (String × PyObj) → List (String × PyObj)
  | [] => []
  | kv :: kvs => (kv.1, applyToCollection f kv.2) :: applyToCollectionDict f kvs

end

/-- Source lines 191-195, `_materialize_tensors`: apply `_load_tensor`
to every placeholder of the collection. -/
def materialize_tensors (collection : PyObj) : PyObj :=
  applyToCollection (fun t => t.load_tensor.1) collection

/-- The shape of a container structure: every leaf erased, sequence and
mapping spines (with the mapping keys) kept. -/
inductive Skel where
  | leaf
  | list (xs : List Skel)
  | dict (ks : List String) (xs : List Skel)

mutual

/-- The container skeleton of an object tree. -/
def skel : PyObj → Skel
  | PyObj.tensor _ => Skel.leaf
  | PyObj.lazy _ => Skel.leaf
  | PyObj.scalar _ => Skel.leaf
  | PyObj.list xs => Skel.list (skelList xs)
  | PyObj.dict kvs => Skel.dict (kvs.map (fun kv => kv.1)) (skelDict kvs)

/-- Skeletons of the elements of a sequence. -/
def skelList : List PyObj → List Skel
  | [] => []
  | x :: xs => skel x :: skelList xs

/-- Skeletons of the values of a mapping. -/
def skelDict : List (String × PyObj) → List Skel
  | [] => []
  | kv :: kvs => skel kv.2 :: skelDict kvs

end

mutual

/-- The leaves of an object tree, left to right. -/
def leaves : PyObj → List PyObj
  | PyObj.tensor t => [PyObj.tensor t]
  | PyObj.lazy n => [PyObj.lazy n]
  | PyObj.scalar v => [PyObj.scalar v]
  | PyObj.list xs => leavesList xs
  | PyObj.dict kvs => leavesDict kvs

/-- Leaves of the elements of a sequence, concatenated. -/
def leavesList : List PyObj → List PyObj
  | [] => []
  | x :: xs => leaves x ++ leavesList xs

/-- Leaves of the values of a mapping, concatenated. -/
def leavesDict : List (String × PyObj) → List PyObj
  | [] => []
  | kv :: kvs => leaves kv.2 ++ leavesDict kvs

end

/-- What materialization does to a single leaf: placeholders are
replaced by their loaded tensor, all other leaves pass through. -/
def materializeLeaf : PyObj → PyObj
  | PyObj.lazy n => PyObj.tensor n.load_tensor.1
  | x => x

/-- A concrete one-record archive used by the witnesses below. -/
def sampleArchive : Archive := ⟨[("data/0", [1, 2, 3, 4, 5, 6, 7, 8])]⟩

/-- A deserializer context over the sample archive. -/
def sampleUnpickler : LazyLoadingUnpickler := ⟨sampleArchive⟩

/-- A concrete persistent-reference tuple: four uint8 elements stored in
record `0`. -/
def samplePid : Pid := ⟨"storage", DType.uint8, "0", "cpu", 4⟩

/-- The zero-footprint storage descriptor the deserializer produces for
`samplePid`. -/
def sampleStorage : TypedStorage := (sampleUnpickler.persistent_load samplePid).1

/-- Concrete rebuild arguments: offset 0, shape `[4]`, stride `[1]`. -/
def sampleRebuildArgs : RebuildArgs := ⟨0, [4], [1], false, [], none⟩

/-- The metatensor of the sample placeholder. -/
def sampleMeta : Tensor := torchRebuildTensorV2Args sampleStorage sampleRebuildArgs

/-- A concrete placeholder tensor over the sample archive. -/
def sampleN : NotYetLoadedTensor :=
  ⟨sampleMeta, sampleUnpickler, samplePid, sampleRebuildArgs, []⟩

example :
    NotYetLoadedTensor.rebuild_tensor_v2 sampleStorage 0 [4] [1] false [] none
      sampleUnpickler = some sampleN := rfl

example : sampleN.load_tensor.2 = [Event.read "data/0" 4] := rfl

example : (sampleN.load_tensor.1).dataBytes = [1, 2, 3, 4] := rfl

example : sampleN.getattr "stride" = (Except.error (attrErrorMsg "stride"), []) := rfl

example : sampleN.getattr "shape" = (Except.ok (AttrVal.shapeV [4]), []) := rfl

/-- Materializing the same placeholder twice in sequence: the archive is
immutable and `_load_tensor` neither reads nor writes any other state,
so the second invocation runs under exactly the conditions of the
first. -/
def materialize_twice (n : NotYetLoadedTensor) :
    (Tensor × List Event) × (Tensor × List Event) :=
  (n.load_tensor, n.load_tensor)

/-- Full characterization of `_load_tensor`: one read event of the
record named by the reference tuple, sized by element count times
element size, then the torch rebuild over the warning-suppressed
wrapped storage, with the installed override closures folded on top. -/
theorem load_tensor_eq (n : NotYetLoadedTensor) :
    n.load_tensor =
      (n.loadWrappers.foldl applyTransform
        (torchRebuildTensorV2Args
          ⟨n.metatensor.dtype, "cpu",
            StorageData.bytes ((n.archiveinfo.file_reader.getRecordBytes
              ("data/" ++ n.storageinfo.fn)).take
              (n.storageinfo.size * n.metatensor.dtype.elementSize)), none⟩
          n.rebuild_args),
       [Event.read ("data/" ++ n.storageinfo.fn)
         (n.storageinfo.size * n.metatensor.dtype.elementSize)]) := by
  simp [NotYetLoadedTensor.load_tensor, NotYetLoadedTensor.base_load_tensor,
    Archive.get_storage_from_record, catch_warnings_ignore, TypedStorage.wrap,
    Event.isWarn]

/-- The original load body reads only the metatensor, the reference
tuple, the rebuild arguments and the archive handle; the installed
closure chain does not affect it. -/
theorem base_load_ignores_wrappers (n : NotYetLoadedTensor) (ws : List Transform) :
    ({ n with loadWrappers := ws } : NotYetLoadedTensor).base_load_tensor =
      n.base_load_tensor := rfl

/-- Installing further override closures composes onto the existing load
closure: the old load runs first, the new transforms are replayed on
its result, and the event trace is that of the old load. -/
theorem load_tensor_append (n : NotYetLoadedTensor) (ws : List Transform) :
    ({ n with loadWrappers := n.loadWrappers ++ ws } : NotYetLoadedTensor).load_tensor =
      (ws.foldl applyTransform n.load_tensor.1, n.load_tensor.2) := by
  simp [NotYetLoadedTensor.load_tensor, List.foldl_append, base_load_ignores_wrappers]

/-- C1: `rebuild_from_type_v2` with an inner build function returning a
placeholder returns that placeholder with one more deferred closure
layer, whose load first runs the inner deferred load and then replays
the type-changing rebuild with the captured state on the now-concrete
inner tensor — the inner placeholder is never resolved eagerly; with a
concrete inner result the type-changing rebuild happens immediately. -/
theorem rebuild_from_type_v2_spec {α : Type} (func : α → TValue) (new_type : String)
    (args : α) (state : TState) :
    (∀ n : NotYetLoadedTensor, func args = TValue.lazy n →
      NotYetLoadedTensor.rebuild_from_type_v2 func new_type args state =
        TValue.lazy { n with loadWrappers :=
          n.loadWrappers ++ [Transform.fromTypeV2 new_type state] } ∧
      ({ n with loadWrappers := n.loadWrappers ++ [Transform.fromTypeV2 new_type state] }
          : NotYetLoadedTensor).load_tensor =
        (torchRebuildFromTypeV2 (fun _ : Unit => n.load_tensor.1) new_type () state,
         n.load_tensor.2)) ∧
    (∀ t : Tensor, func args = TValue.concrete t →
      NotYetLoadedTensor.rebuild_from_type_v2 func new_type args state =
        TValue.concrete (torchRebuildFromTypeV2 (fun _ : α => t) new_type args state)) := by
  constructor
  · intro n h
    refine ⟨by simp [NotYetLoadedTensor.rebuild_from_type_v2, h], ?_⟩
    rw [load_tensor_append]
    rfl
  · intro t h
    simp [NotYetLoadedTensor.rebuild_from_type_v2, h]

/-- Witness for C1 at a concrete placeholder and a concrete tensor. -/
theorem rebuild_from_type_v2_spec_witness :
    (NotYetLoadedTensor.rebuild_from_type_v2 (fun _ : Unit => TValue.lazy sampleN)
        "torch.Tensor" () [("k", 1)] =
      TValue.lazy { sampleN with
        loadWrappers := [Transform.fromTypeV2 "torch.Tensor" [("k", 1)]] } ∧
      ({ sampleN with
          loadWrappers := [Transform.fromTypeV2 "torch.Tensor" [("k", 1)]] }
          : NotYetLoadedTensor).load_tensor =
        (torchRebuildFromTypeV2 (fun _ : Unit => sampleN.load_tensor.1) "torch.Tensor"
          () [("k", 1)], sampleN.load_tensor.2)) ∧
    NotYetLoadedTensor.rebuild_from_type_v2 (fun _ : Unit => TValue.concrete sampleMeta)
        "torch.Tensor" () [("k", 1)] =
      TValue.concrete
        (torchRebuildFromTypeV2 (fun _ : Unit => sampleMeta) "torch.Tensor" () [("k", 1)]) :=
  ⟨(rebuild_from_type_v2_spec (fun _ : Unit => TValue.lazy sampleN) "torch.Tensor" ()
      [("k", 1)]).1 sampleN rfl,
   (rebuild_from_type_v2_spec (fun _ : Unit => TValue.concrete sampleMeta) "torch.Tensor" ()
      [("k", 1)]).2 sampleMeta rfl⟩

/-- C3: materializing a placeholder issues exactly one archive read, of
exactly element-count times dtype-element-size bytes of the referenced
record, and applies the stored rebuild arguments to the resulting
storage to produce the final concrete tensor (with the installed
override closures folded on top); no other read occurs. -/
theorem load_tensor_single_read (n : NotYetLoadedTensor) :
    n.load_tensor.2 =
      [Event.read ("data/" ++ n.storageinfo.fn)
        (n.storageinfo.size * n.metatensor.dtype.elementSize)] ∧
    n.load_tensor.2.countP (fun e => e.isRead) = 1 ∧
    n.load_tensor.1 =
      n.loadWrappers.foldl applyTransform
        (torchRebuildTensorV2Args
          ⟨n.metatensor.dtype, "cpu",
            StorageData.bytes ((n.archiveinfo.file_reader.getRecordBytes
              ("data/" ++ n.storageinfo.fn)).take
              (n.storageinfo.size * n.metatensor.dtype.elementSize)), none⟩
          n.rebuild_args) := by
  rw [load_tensor_eq]
  refine ⟨rfl, ?_, rfl⟩
  simp [List.countP_cons, Event.isRead]

/-- C7: `persistent_load` turns a persistent-reference tuple into a
zero-footprint storage descriptor whose dtype is the storage class's
dtype, whose device is the meta (no backing memory) device, and which
carries the full reference tuple; its trace holds no read event (and no
escaping warning). -/
theorem persistent_load_spec (u : LazyLoadingUnpickler) (pid : Pid) :
    u.persistent_load pid =
      (⟨pid.cls, "meta", StorageData.meta, some pid⟩, []) := rfl

/-- C8: materializing a placeholder twice over its fixed archive yields
element-wise equal data both times (indeed equal tensors and equal
traces), and each of the two invocations performs its own single
archive read. -/
theorem materialize_twice_idempotent (n : NotYetLoadedTensor) :
    (materialize_twice n).1.1.dataBytes = (materialize_twice n).2.1.dataBytes ∧
    (materialize_twice n).1 = (materialize_twice n).2 ∧
    (materialize_twice n).1.2.countP (fun e => e.isRead) = 1 ∧
    (materialize_twice n).2.2.countP (fun e => e.isRead) = 1 := by
  refine ⟨rfl, rfl, ?_, ?_⟩ <;>
    simp [materialize_twice, load_tensor_eq, List.countP_cons, Event.isRead]

/-- Eager (non-lazy) loading of the same archive record: read the
referenced bytes, make the typed storage, and run the unmodified torch
rebuild chain — plain tensor, then type-changing rebuild, then
parameter wrap — as loading without the lazy unpickler would. -/
def eagerChain (ar : Archive) (fn : String) (count : Nat) (dtype : DType)
    (a : RebuildArgs) (new_type : String) (state : TState) (requires_grad : Bool)
    (backward_hooks : List String) : Tensor :=
  torchRebuildParameter
    (torchRebuildFromTypeV2
      (fun _ : Unit =>
        torchRebuildTensorV2Args
          ⟨dtype, "cpu",
            StorageData.bytes ((ar.get_storage_from_record ("data/" ++ fn)
              (count * dtype.elementSize)).1), none⟩ a)
      new_type () state)
    requires_grad backward_hooks

/-- C2: `rebuild_parameter` on a placeholder installs a closure that
loads the data and then wraps it as a parameter with the given flag and
hooks; on concrete data it wraps immediately.  A type-wrapped
placeholder wrapped again as a parameter materializes in one step to a
fully concrete parameter with the requires-grad flag propagated, equal
to what eager loading of the same archive record produces. -/
theorem rebuild_parameter_spec :
    (∀ (n : NotYetLoadedTensor) (rg : Bool) (hooks : List String),
      NotYetLoadedTensor.rebuild_parameter (TValue.lazy n) rg hooks =
        TValue.lazy { n with loadWrappers := n.loadWrappers ++ [Transform.param rg hooks] } ∧
      ({ n with loadWrappers := n.loadWrappers ++ [Transform.param rg hooks] }
          : NotYetLoadedTensor).load_tensor =
        (torchRebuildParameter n.load_tensor.1 rg hooks, n.load_tensor.2)) ∧
    (∀ (t : Tensor) (rg : Bool) (hooks : List String),
      NotYetLoadedTensor.rebuild_parameter (TValue.concrete t) rg hooks =
        TValue.concrete (torchRebuildParameter t rg hooks)) ∧
    (∀ (storage : TypedStorage) (pid : Pid) (u : LazyLoadingUnpickler)
        (off : Nat) (sz strd : List Nat) (rg0 : Bool) (h0 : List String)
        (md : Option Nat) (nt : String) (st : TState) (rg : Bool)
        (hooks : List String) (n0 : NotYetLoadedTensor),
      storage.archiveinfo = some pid →
      NotYetLoadedTensor.rebuild_tensor_v2 storage off sz strd rg0 h0 md u = some n0 →
      NotYetLoadedTensor.rebuild_parameter
          (NotYetLoadedTensor.rebuild_from_type_v2 (fun _ : Unit => TValue.lazy n0)
            nt () st) rg hooks =
        TValue.lazy { n0 with loadWrappers :=
          [Transform.fromTypeV2 nt st, Transform.param rg hooks] } ∧
      (({ n0 with loadWrappers :=
          [Transform.fromTypeV2 nt st, Transform.param rg hooks] }
          : NotYetLoadedTensor).load_tensor.1 =
        eagerChain u.file_reader pid.fn pid.size storage.dtype
          ⟨off, sz, strd, rg0, h0, md⟩ nt st rg hooks ∧
      ({ n0 with loadWrappers :=
          [Transform.fromTypeV2 nt st, Transform.param rg hooks] }
          : NotYetLoadedTensor).load_tensor.1.is_param = true ∧
      ({ n0 with loadWrappers :=
          [Transform.fromTypeV2 nt st, Transform.param rg hooks] }
          : NotYetLoadedTensor).load_tensor.1.requires_grad = rg ∧
      ({ n0 with loadWrappers :=
          [Transform.fromTypeV2 nt st, Transform.param rg hooks] }
          : NotYetLoadedTensor).load_tensor.1.isMaterialized = true)) := by
  refine ⟨?_, ?_, ?_⟩
  · intro n rg hooks
    refine ⟨by simp [NotYetLoadedTensor.rebuild_parameter], ?_⟩
    rw [load_tensor_append]
    rfl
  · intro t rg hooks
    rfl
  · intro storage pid u off sz strd rg0 h0 md nt st rg hooks n0 hpid hn0
    rw [NotYetLoadedTensor.rebuild_tensor_v2, hpid] at hn0
    simp only [Option.map_some', Option.some.injEq] at hn0
    subst hn0
    refine ⟨rfl, ?_, ?_, ?_, ?_⟩ <;>
      simp [load_tensor_eq, eagerChain, applyTransform, torchRebuildFromTypeV2,
        applyTypeState, torchRebuildParameter, torchRebuildTensorV2Args,
        torchRebuildTensorV2, Archive.get_storage_from_record, Tensor.dtype,
        Tensor.isMaterialized]

/-- Witness for C2 at the sample archive: each branch of the theorem
applied at a concrete input. -/
theorem rebuild_parameter_spec_witness :
    (NotYetLoadedTensor.rebuild_parameter (TValue.lazy sampleN) true [] =
      TValue.lazy { sampleN with loadWrappers := [Transform.param true []] } ∧
      ({ sampleN with loadWrappers := [Transform.param true []] }
          : NotYetLoadedTensor).load_tensor =
        (torchRebuildParameter sampleN.load_tensor.1 true [], sampleN.load_tensor.2)) ∧
    NotYetLoadedTensor.rebuild_parameter (TValue.concrete sampleMeta) true [] =
      TValue.concrete (torchRebuildParameter sampleMeta true []) ∧
    (NotYetLoadedTensor.rebuild_parameter
        (NotYetLoadedTensor.rebuild_from_type_v2 (fun _ : Unit => TValue.lazy sampleN)
          "torch.Tensor" () []) true [] =
      TValue.lazy { sampleN with loadWrappers :=
        [Transform.fromTypeV2 "torch.Tensor" [], Transform.param true []] } ∧
      (({ sampleN with loadWrappers :=
          [Transform.fromTypeV2 "torch.Tensor" [], Transform.param true []] }
          : NotYetLoadedTensor).load_tensor.1 =
        eagerChain sampleUnpickler.file_reader samplePid.fn samplePid.size
          sampleStorage.dtype ⟨0, [4], [1], false, [], none⟩ "torch.Tensor" [] true [] ∧
      ({ sampleN with loadWrappers :=
          [Transform.fromTypeV2 "torch.Tensor" [], Transform.param true []] }
          : NotYetLoadedTensor).load_tensor.1.is_param = true ∧
      ({ sampleN with loadWrappers :=
          [Transform.fromTypeV2 "torch.Tensor" [], Transform.param true []] }
          : NotYetLoadedTensor).load_tensor.1.requires_grad = true ∧
      ({ sampleN with loadWrappers :=
          [Transform.fromTypeV2 "torch.Tensor" [], Transform.param true []] }
          : NotYetLoadedTensor).load_tensor.1.isMaterialized = true)) :=
  ⟨rebuild_parameter_spec.1 sampleN true [],
   rebuild_parameter_spec.2.1 sampleMeta true [],
   rebuild_parameter_spec.2.2 sampleStorage samplePid sampleUnpickler 0 [4] [1]
     false [] none "torch.Tensor" [] true [] sampleN rfl rfl⟩

/-- A transform layer never changes the view size of the tensor it is
replayed on. -/
theorem applyTransform_size (t : Tensor) (tr : Transform) :
    (applyTransform t tr).size = t.size := by
  cases tr <;> rfl

/-- A transform layer never changes the backing storage of the tensor
it is replayed on. -/
theorem applyTransform_storage (t : Tensor) (tr : Transform) :
    (applyTransform t tr).storage = t.storage := by
  cases tr <;> rfl

/-- A transform layer never changes the view stride. -/
theorem applyTransform_stride (t : Tensor) (tr : Transform) :
    (applyTransform t tr).stride = t.stride := by
  cases tr <;> rfl

/-- Folded transform layers keep the view size. -/
theorem foldl_applyTransform_size (ws : List Transform) (t : Tensor) :
    (ws.foldl applyTransform t).size = t.size := by
  induction ws generalizing t with
  | nil => rfl
  | cons w ws ih => rw [List.foldl_cons, ih, applyTransform_size]

/-- Folded transform layers keep the backing storage. -/
theorem foldl_applyTransform_storage (ws : List Transform) (t : Tensor) :
    (ws.foldl applyTransform t).storage = t.storage := by
  induction ws generalizing t with
  | nil => rfl
  | cons w ws ih => rw [List.foldl_cons, ih, applyTransform_storage]

/-- Folded transform layers keep the view stride. -/
theorem foldl_applyTransform_stride (ws : List Transform) (t : Tensor) :
    (ws.foldl applyTransform t).stride = t.stride := by
  induction ws generalizing t with
  | nil => rfl
  | cons w ws ih => rw [List.foldl_cons, ih, applyTransform_stride]

/-- C4 counterexample: on a concrete placeholder, reading `stride`
before materialization does not succeed: `stride` is not on the
metadata allow-list, so `__getattr__` raises an `AttributeError`
instead of returning the stride. -/
theorem getattr_stride_fails :
    sampleN.getattr "stride" = (Except.error (attrErrorMsg "stride"), []) := rfl

/-- C4 as amended: for a placeholder built by `rebuild_tensor_v2` (with
any deferred rebuild layers installed on top), reading `shape` and
`dtype` before materialization succeeds with no I/O and returns exactly
the size and dtype of the tensor materialization produces; reading
`stride`, by contrast, raises an `AttributeError` even though the
stored stride argument does equal the materialized tensor's stride. -/
theorem getattr_metadata_matches_load (storage : TypedStorage) (pid : Pid)
    (u : LazyLoadingUnpickler) (off : Nat) (sz strd : List Nat) (rg0 : Bool)
    (h0 : List String) (md : Option Nat) (n0 : NotYetLoadedTensor)
    (ws : List Transform) :
    storage.archiveinfo = some pid →
    NotYetLoadedTensor.rebuild_tensor_v2 storage off sz strd rg0 h0 md u = some n0 →
    (({ n0 with loadWrappers := ws } : NotYetLoadedTensor).getattr "shape" =
      (Except.ok (AttrVal.shapeV sz), []) ∧
    ({ n0 with loadWrappers := ws } : NotYetLoadedTensor).getattr "dtype" =
      (Except.ok (AttrVal.dtypeV storage.dtype), []) ∧
    ({ n0 with loadWrappers := ws } : NotYetLoadedTensor).load_tensor.1.size = sz ∧
    ({ n0 with loadWrappers := ws } : NotYetLoadedTensor).load_tensor.1.dtype =
      storage.dtype ∧
    ({ n0 with loadWrappers := ws } : NotYetLoadedTensor).load_tensor.1.stride = strd ∧
    ({ n0 with loadWrappers := ws } : NotYetLoadedTensor).getattr "stride" =
      (Except.error (attrErrorMsg "stride"), [])) := by
  intro hpid hn0
  rw [NotYetLoadedTensor.rebuild_tensor_v2, hpid] at hn0
  simp only [Option.map_some', Option.some.injEq] at hn0
  subst hn0
  refine ⟨rfl, rfl, ?_, ?_, ?_, rfl⟩
  · rw [load_tensor_eq]
    simp [foldl_applyTransform_size, torchRebuildTensorV2Args, torchRebuildTensorV2]
  · rw [load_tensor_eq]
    simp [Tensor.dtype, foldl_applyTransform_storage, torchRebuildTensorV2Args,
      torchRebuildTensorV2]
  · rw [load_tensor_eq]
    simp [foldl_applyTransform_stride, torchRebuildTensorV2Args, torchRebuildTensorV2]

/-- Witness for the amended C4 at the sample archive. -/
theorem getattr_metadata_matches_load_witness :
    sampleN.getattr "shape" = (Except.ok (AttrVal.shapeV [4]), []) ∧
    sampleN.getattr "dtype" = (Except.ok (AttrVal.dtypeV sampleStorage.dtype), []) ∧
    sampleN.load_tensor.1.size = [4] ∧
    sampleN.load_tensor.1.dtype = sampleStorage.dtype ∧
    sampleN.load_tensor.1.stride = [1] ∧
    sampleN.getattr "stride" = (Except.error (attrErrorMsg "stride"), []) :=
  getattr_metadata_matches_load sampleStorage samplePid sampleUnpickler 0 [4] [1]
    false [] none sampleN [] rfl rfl

/-- C5 counterexample: an operation invoked through the dispatch hook
with a placeholder passed as a keyword argument receives that keyword
argument still unmaterialized and triggers no archive read, so not
every Placeholder Tensor argument of the call is materialized first. -/
theorem torch_function_kwarg_not_materialized :
    NotYetLoadedTensor.torch_function (fun _ kwargs => kwargs) []
        [("out", TorchArg.lazy sampleN)] =
      ([("out", TorchArg.lazy sampleN)], []) := rfl

/-- C5 as amended: every placeholder among the positional arguments is
materialized eagerly, in argument order, and the operation then runs on
the resulting real tensors; keyword arguments are forwarded to the
operation unchanged, without materialization. -/
theorem torch_function_spec {β : Type}
    (func : List TorchArg → List (String × TorchArg) → β)
    (args : List TorchArg) (kwargs : List (String × TorchArg)) :
    NotYetLoadedTensor.torch_function func args kwargs =
      (func (args.map (fun a => (loadTorchArg a).1)) kwargs,
       (args.map (fun a => (loadTorchArg a).2)).flatten) ∧
    (∀ n : NotYetLoadedTensor,
      loadTorchArg (TorchArg.lazy n) = (TorchArg.plain n.load_tensor.1, n.load_tensor.2)) ∧
    (∀ t : Tensor, loadTorchArg (TorchArg.plain t) = (TorchArg.plain t, [])) ∧
    (∀ v : Int, loadTorchArg (TorchArg.other v) = (TorchArg.other v, [])) := by
  refine ⟨?_, fun n => rfl, fun t => rfl, fun v => rfl⟩
  simp [NotYetLoadedTensor.torch_function, List.map_map, Function.comp_def]

/-- C6 counterexample: `strides` is not on the allow-list, so reading
it on a concrete placeholder does not delegate to the metatensor but
raises the `AttributeError`. -/
theorem getattr_strides_not_allowlisted :
    ("strides" ∈ metadataAttrs → False) ∧
    sampleN.getattr "strides" = (Except.error (attrErrorMsg "strides"), []) :=
  ⟨by decide, rfl⟩

/-- C6 as amended: a name on the fixed allow-list (`dtype`, `grad`,
`grad_fn`, `layout`, `names`, `ndim`, `output_nr`, `requires_grad`,
`retains_grad`, `size`, `shape`, `volatile` — `strides` is not among
them) is read off the zero-footprint metatensor with no I/O; any other
name except the single special-cased `contiguous` fails immediately
with an attribute-not-found error naming the placeholder type, with no
I/O and no state change. -/
theorem getattr_allowlist_dichotomy (n : NotYetLoadedTensor) (name : String) :
    (name ∈ metadataAttrs →
      n.getattr name = (Except.ok (n.metatensor.attrOf name), [])) ∧
    (name ∉ metadataAttrs → name ≠ "contiguous" →
      n.getattr name = (Except.error (attrErrorMsg name), [])) := by
  constructor
  · intro h
    simp [NotYetLoadedTensor.getattr, h]
  · intro h1 h2
    simp [NotYetLoadedTensor.getattr, h1, h2]

/-- Witness for the amended C6: one allow-listed name and one rejected
name, each evaluated on the sample placeholder. -/
theorem getattr_allowlist_dichotomy_witness :
    sampleN.getattr "dtype" = (Except.ok (sampleN.metatensor.attrOf "dtype"), []) ∧
    sampleN.getattr "tolist" = (Except.error (attrErrorMsg "tolist"), []) :=
  ⟨(getattr_allowlist_dichotomy sampleN "dtype").1 (by decide),
   (getattr_allowlist_dichotomy sampleN "tolist").2 (by decide) (by decide)⟩

/-- C10 counterexample: the persistent-reference resolution step also
silences warnings: the legacy storage construction it performs emits a
deprecation-style warning when run on its own, yet the trace of
`persistent_load` is empty. -/
theorem persistent_load_also_silences :
    (sampleUnpickler.persistent_load samplePid).2 = [] ∧
    (TypedStorage.fresh samplePid.cls "meta").2 =
      [Event.warn "TypedStorage is deprecated"] := ⟨rfl, rfl⟩

/-- C10 as amended: warnings from the legacy storage construction path
are suppressed locally at exactly the two warning-guarded steps — the
storage-wrapping step of materialization and the storage-descriptor
construction of persistent-reference resolution; nothing is silenced
globally: materialization's read event always escapes, and the legacy
constructors do emit their warning whenever they run unsuppressed. -/
theorem warning_suppression_is_local (n : NotYetLoadedTensor)
    (u : LazyLoadingUnpickler) (pid : Pid) (uts : List Nat) (d : DType)
    (dev : String) :
    n.load_tensor.2.filter (fun e => e.isWarn) = [] ∧
    n.load_tensor.2.filter (fun e => e.isRead) = n.load_tensor.2 ∧
    (u.persistent_load pid).2 = [] ∧
    (TypedStorage.wrap uts d).2 = [Event.warn "TypedStorage is deprecated"] ∧
    (TypedStorage.fresh d dev).2 = [Event.warn "TypedStorage is deprecated"] := by
  refine ⟨?_, ?_, rfl, rfl, rfl⟩ <;>
    simp [load_tensor_eq, Event.isWarn, Event.isRead]

/-- Induction over object trees giving the hypothesis for every member
of a container, not just for a structural head. -/
def PyObj.recMem {motive : PyObj → Prop}
    (tensor : ∀ t, motive (PyObj.tensor t))
    (lazy : ∀ n, motive (PyObj.lazy n))
    (scalar : ∀ v, motive (PyObj.scalar v))
    (list : ∀ xs, (∀ x ∈ xs, motive x) → motive (PyObj.list xs))
    (dict : ∀ kvs, (∀ kv ∈ kvs, motive kv.2) → motive (PyObj.dict kvs)) :
    ∀ c, motive c
  | PyObj.tensor t => tensor t
  | PyObj.lazy n => lazy n
  | PyObj.scalar v => scalar v
  | PyObj.list xs =>
      list xs (fun x _ => PyObj.recMem tensor lazy scalar list dict x)
  | PyObj.dict kvs =>
      dict kvs (fun kv _ => PyObj.recMem tensor lazy scalar list dict kv.2)
termination_by c => sizeOf c
decreasing_by
  · have h1 := List.sizeOf_lt_of_mem (by assumption : x ∈ xs)
    simp only [PyObj.list.sizeOf_spec]
    omega
  · have h1 := List.sizeOf_lt_of_mem (by assumption : kv ∈ kvs)
    have h2 : sizeOf kv.2 < sizeOf kv := by
      cases kv
      simp only [Prod.mk.sizeOf_spec]
      omega
    simp only [PyObj.dict.sizeOf_spec]
    omega

/-- The traversal preserves the keys of a mapping. -/
theorem applyToCollectionDict_keys (f : NotYetLoadedTensor → Tensor)
    (kvs : List (String × PyObj)) :
    (applyToCollectionDict f kvs).map (fun kv => kv.1) =
      kvs.map (fun kv => kv.1) := by
  induction kvs with
  | nil => rfl
  | cons kv kvs ih => simp [applyToCollectionDict, ih]

/-- Skeleton preservation for the elements of a sequence, given it for
each element. -/
theorem skelList_applyToCollectionList (f : NotYetLoadedTensor → Tensor)
    (ys : List PyObj)
    (h : ∀ x ∈ ys, skel (applyToCollection f x) = skel x) :
    skelList (applyToCollectionList f ys) = skelList ys := by
  induction ys with
  | nil => rfl
  | cons y ys ih =>
      simp only [applyToCollectionList, skelList]
      rw [h y (by simp), ih (fun x hx => h x (by simp [hx]))]

/-- Skeleton preservation for the values of a mapping, given it for
each value. -/
theorem skelDict_applyToCollectionDict (f : NotYetLoadedTensor → Tensor)
    (kvs : List (String × PyObj))
    (h : ∀ kv ∈ kvs, skel (applyToCollection f kv.2) = skel kv.2) :
    skelDict (applyToCollectionDict f kvs) = skelDict kvs := by
  induction kvs with
  | nil => rfl
  | cons kv kvs ih =>
      simp only [applyToCollectionDict, skelDict]
      rw [h kv (by simp), ih (fun kv2 hkv2 => h kv2 (by simp [hkv2]))]

/-- The traversal returns a structurally identical copy: container
skeleton and mapping keys are untouched. -/
theorem skel_applyToCollection (f : NotYetLoadedTensor → Tensor) (c : PyObj) :
    skel (applyToCollection f c) = skel c := by
  induction c using PyObj.recMem with
  | tensor t => rfl
  | lazy n => rfl
  | scalar v => rfl
  | list xs ih =>
      simp only [applyToCollection, skel]
      rw [skelList_applyToCollectionList f xs ih]
  | dict kvs ih =>
      simp only [applyToCollection, skel]
      rw [skelDict_applyToCollectionDict f kvs ih, applyToCollectionDict_keys]

/-- What the traversal does to one leaf. -/
def replaceLeaf (f : NotYetLoadedTensor → Tensor) : PyObj → PyObj
  | PyObj.lazy n => PyObj.tensor (f n)
  | x => x

/-- Leaf replacement for the elements of a sequence, given it for each
element. -/
theorem leavesList_applyToCollectionList (f : NotYetLoadedTensor → Tensor)
    (ys : List PyObj)
    (h : ∀ x ∈ ys, leaves (applyToCollection f x) = (leaves x).map (replaceLeaf f)) :
    leavesList (applyToCollectionList f ys) = (leavesList ys).map (replaceLeaf f) := by
  induction ys with
  | nil => rfl
  | cons y ys ih =>
      simp only [applyToCollectionList, leavesList, List.map_append]
      rw [h y (by simp), ih (fun x hx => h x (by simp [hx]))]

/-- Leaf replacement for the values of a mapping, given it for each
value. -/
theorem leavesDict_applyToCollectionDict (f : NotYetLoadedTensor → Tensor)
    (kvs : List (String × PyObj))
    (h : ∀ kv ∈ kvs, leaves (applyToCollection f kv.2) = (leaves kv.2).map (replaceLeaf f)) :
    leavesDict (applyToCollectionDict f kvs) = (leavesDict kvs).map (replaceLeaf f) := by
  induction kvs with
  | nil => rfl
  | cons kv kvs ih =>
      simp only [applyToCollectionDict, leavesDict, List.map_append]
      rw [h kv (by simp), ih (fun kv2 hkv2 => h kv2 (by simp [hkv2]))]

/-- The traversal replaces exactly the placeholder leaves, in place:
the leaf sequence of the result is the original leaf sequence with `f`
applied to each placeholder and everything else untouched. -/
theorem leaves_applyToCollection (f : NotYetLoadedTensor → Tensor) (c : PyObj) :
    leaves (applyToCollection f c) = (leaves c).map (replaceLeaf f) := by
  induction c using PyObj.recMem with
  | tensor t => rfl
  | lazy n => rfl
  | scalar v => rfl
  | list xs ih =>
      simp only [applyToCollection, leaves]
      rw [leavesList_applyToCollectionList f xs ih]
  | dict kvs ih =>
      simp only [applyToCollection, leaves]
      rw [leavesDict_applyToCollectionDict f kvs ih]

/-- C9: `_materialize_tensors` returns a structurally identical copy of
the collection — same container skeleton, same mapping keys — in which
every placeholder leaf is replaced by its materialized tensor and every
other leaf passes through unchanged. -/
theorem materialize_tensors_spec (c : PyObj) :
    skel (materialize_tensors c) = skel c ∧
    leaves (materialize_tensors c) = (leaves c).map materializeLeaf := by
  have hle : materializeLeaf = replaceLeaf (fun t => t.load_tensor.1) := by
    funext x
    cases x <;> rfl
  exact ⟨skel_applyToCollection (fun t => t.load_tensor.1) c,
    by rw [materialize_tensors, leaves_applyToCollection, hle]⟩

end LazyLoad
